import Mathlib

/-!
# Verification of the jutil financial-identifier validation subsystem

Shallow embedding of `jutil/validators.py` (and the Swedish bank clearing
table `jutil/bank_const_se.py`) in Lean 4, with theorems settling the
specification claims about the filter layer, the checksum engine, the
IBAN validator/generator pair and the bank-table lookup.

Embedding conventions:
* Python strings are modelled as Lean `String` (logically a list of
  characters); slicing `v[a:b]` becomes `List.take`/`List.drop` on `.data`.
* Python's Unicode-aware character operations (`str.upper`, `str.lower`,
  `\s`, `\d`, `\w`) are modelled at the ASCII level, which is exact on the
  character sets the validators actually keep after filtering.
* Functions that can raise return an explicit result type (`VRes` for
  validators that return `None` or raise `ValidationError`, `StrRes` for
  string-returning functions); dynamically-typed arguments that may be
  `None` are modelled as `Option String`.
* The module `jutil/bank_const_iban.py` (the mapping
  `IBAN_LENGTH_BY_COUNTRY`) is not part of the available sources, so the
  IBAN validator and generator are parameterised by the registry, modelled
  as an association list `List (String × Nat)`.
* The generator's random draws are modelled as explicit parameters
  (the drawn BBAN digit characters).
-/

/-! ## Python character-class primitives (ASCII level) -/

/-- Python regex `[0-9]` / `str.isdigit` on ASCII: `'0' ≤ c ≤ '9'`. -/
def pyIsDigit (c : Char) : Bool :=
  48 ≤ c.toNat && c.toNat ≤ 57

/-- ASCII uppercase letter `A`–`Z`. -/
def pyIsUpperAlpha (c : Char) : Bool :=
  65 ≤ c.toNat && c.toNat ≤ 90

/-- ASCII lowercase letter `a`–`z`. -/
def pyIsLowerAlpha (c : Char) : Bool :=
  97 ≤ c.toNat && c.toNat ≤ 122

/-- Python `str.strip` whitespace set, ASCII part: space, `\t`, `\n`,
`\r`, `\x0b`, `\x0c`. -/
def pyIsSpace (c : Char) : Bool :=
  c.toNat == 32 || (9 ≤ c.toNat && c.toNat ≤ 13)

/-- Python `str.upper` modelled character-wise at ASCII level
(this is exactly core `Char.toUpper`). -/
def pyToUpper (c : Char) : Char := c.toUpper

/-- Python `str.lower` modelled character-wise at ASCII level. -/
def pyToLower (c : Char) : Char := c.toLower

/-- `str.strip` from the left: drop leading whitespace. -/
def pyLStrip (l : List Char) : List Char := l.dropWhile pyIsSpace

/-- `str.strip`: drop leading and trailing whitespace. -/
def pyStrip (l : List Char) : List Char :=
  ((pyLStrip l).reverse.dropWhile pyIsSpace).reverse

/-- Python `re.sub(r"\s+", "", v)`: remove every whitespace character. -/
def pyStripAllWs (l : List Char) : List Char := l.filter (fun c => !pyIsSpace c)

/-- Python string comparison `a <= b`: lexicographic on code points. -/
def pyStrLe : List Char → List Char → Bool
  | [], _ => true
  | _ :: _, [] => false
  | a :: ar, b :: br =>
    if a.toNat < b.toNat then true
    else if b.toNat < a.toNat then false
    else pyStrLe ar br

/-! ## The filter layer (`validators.py` lines 19–168, 388–464, 610–629)

Each Python filter `f(v)` guarded by `if v else ""` treats both `None` and
`""` as falsy.  The `String → String` versions below model the call on an
actual string; the `Option String` versions (`*_py`) additionally model a
`None` argument, returning the exception Python would raise. -/

/-- `PHONE_FILTER = re.compile(r"[^+0-9]")`: the set of characters *kept*
by `PHONE_FILTER.sub("", v)`. -/
def phoneKeep (c : Char) : Bool := c == '+' || pyIsDigit c

/-- `phone_filter`: `PHONE_FILTER.sub("", str(v)) if v else ""`. -/
def phone_filter (v : String) : String :=
  if v = "" then "" else ⟨v.data.filter phoneKeep⟩

/-- `email_filter`: `str(v).lower().strip() if v else ""`. -/
def email_filter (v : String) : String :=
  if v = "" then "" else ⟨pyStrip (v.data.map pyToLower)⟩

/-- `PASSPORT_FILTER = re.compile(r"[^-A-Z0-9]")`: characters kept. -/
def passportKeep (c : Char) : Bool := c == '-' || pyIsUpperAlpha c || pyIsDigit c

/-- `passport_filter`: `PASSPORT_FILTER.sub("", str(v).upper()) if v else ""`. -/
def passport_filter (v : String) : String :=
  if v = "" then "" else ⟨(v.data.map pyToUpper).filter passportKeep⟩

/-- `country_code_filter`: `v.strip().upper()` (no falsy guard in source). -/
def country_code_filter (v : String) : String :=
  ⟨(pyStrip v.data).map pyToUpper⟩

/-- `bic_filter`: `v.strip().upper()` (no falsy guard in source). -/
def bic_filter (v : String) : String :=
  ⟨(pyStrip v.data).map pyToUpper⟩

/-- `IBAN_FILTER = re.compile(r"[^A-Z0-9]")`: characters kept. -/
def ibanKeep (c : Char) : Bool := pyIsUpperAlpha c || pyIsDigit c

/-- `iban_filter`: `IBAN_FILTER.sub("", str(v).upper()) if v else ""`. -/
def iban_filter (v : String) : String :=
  if v = "" then "" else ⟨(v.data.map pyToUpper).filter ibanKeep⟩

/-- `FI_SSN_FILTER = re.compile(r"[^0-9A-Z+-]")`: characters kept. -/
def fiSsnKeep (c : Char) : Bool :=
  pyIsDigit c || pyIsUpperAlpha c || c == '+' || c == '-'

/-- `fi_ssn_filter`: `FI_SSN_FILTER.sub("", v.upper())` (no falsy guard). -/
def fi_ssn_filter (v : String) : String :=
  ⟨(v.data.map pyToUpper).filter fiSsnKeep⟩

/-- `SE_SSN_FILTER = re.compile(r"[^-0-9]")`: characters kept. -/
def seSsnKeep (c : Char) : Bool := c == '-' || pyIsDigit c

/-- `se_ssn_filter`: `SE_SSN_FILTER.sub("", v.upper())` (no falsy guard). -/
def se_ssn_filter (v : String) : String :=
  ⟨(v.data.map pyToUpper).filter seSsnKeep⟩

/-- `fi_company_org_id_filter`: keep only digits, then
`v[:-1] + "-" + v[-1:] if len(v) >= 2 else ""` (no falsy guard; the regex
`FI_COMPANY_ORG_ID_FILTER = [^0-9]` removes non-digits). -/
def fi_company_org_id_filter (v : String) : String :=
  let d := v.data.filter pyIsDigit
  if 2 ≤ d.length then ⟨d.take (d.length - 1) ++ '-' :: d.drop (d.length - 1)⟩
  else ""

/-- `digit_filter`: `DIGIT_FILTER.sub("", str(v)) if v else ""` with
`DIGIT_FILTER = re.compile(r"[^0-9]")`. -/
def digit_filter (v : String) : String :=
  if v = "" then "" else ⟨v.data.filter pyIsDigit⟩

/-! ## Python-level (`Option String`) filter wrappers for `None` arguments -/

/-- Exceptions the filter layer can raise when handed `None`. -/
inductive PyErr
  | typeError      -- e.g. `re.sub(pattern, "", None)`
  | attrError      -- e.g. `None.strip()` / `None.upper()`
  | validationError
deriving DecidableEq

/-- Result of a Python function returning a string or raising. -/
inductive StrRes
  | ok (s : String)
  | exn (e : PyErr)
deriving DecidableEq

/-- `phone_filter(None)`: `None` is falsy, the guard returns `""`. -/
def phone_filter_py : Option String → StrRes
  | none => .ok ""
  | some s => .ok (phone_filter s)

/-- `email_filter(None)`: falsy guard returns `""`. -/
def email_filter_py : Option String → StrRes
  | none => .ok ""
  | some s => .ok (email_filter s)

/-- `passport_filter(None)`: falsy guard returns `""`. -/
def passport_filter_py : Option String → StrRes
  | none => .ok ""
  | some s => .ok (passport_filter s)

/-- `iban_filter(None)`: falsy guard returns `""`. -/
def iban_filter_py : Option String → StrRes
  | none => .ok ""
  | some s => .ok (iban_filter s)

/-- `country_code_filter(None)`: `None.strip()` raises `AttributeError`
(the source has no falsy guard). -/
def country_code_filter_py : Option String → StrRes
  | none => .exn .attrError
  | some s => .ok (country_code_filter s)

/-- `bic_filter(None)`: `None.strip()` raises `AttributeError`. -/
def bic_filter_py : Option String → StrRes
  | none => .exn .attrError
  | some s => .ok (bic_filter s)

/-- `fi_ssn_filter(None)`: `None.upper()` raises `AttributeError`. -/
def fi_ssn_filter_py : Option String → StrRes
  | none => .exn .attrError
  | some s => .ok (fi_ssn_filter s)

/-- `se_ssn_filter(None)`: `None.upper()` raises `AttributeError`. -/
def se_ssn_filter_py : Option String → StrRes
  | none => .exn .attrError
  | some s => .ok (se_ssn_filter s)

/-- `fi_company_org_id_filter(None)`: `re.sub(..., None)` raises
`TypeError`. -/
def fi_company_org_id_filter_py : Option String → StrRes
  | none => .exn .typeError
  | some s => .ok (fi_company_org_id_filter s)


/-! ## Validator result types (`ValidationError` codes) -/

/-- `ValidationError` codes raised by the validators. -/
inductive VErr
  | invalid_iban
  | invalid_country_code
  | invalid_company_org_id
  | invalid_ssn
  | invalid_payment_reference   -- `ValidationError` without an explicit code
deriving DecidableEq

/-- Result of a Python validator: returns `None` on success or raises a
`ValidationError` with a code. -/
inductive VRes
  | ok
  | err (code : VErr)
deriving DecidableEq

/-! ## Decimal numeral machinery shared by the mod-97 checksums

The Python code builds a decimal numeral as a *string* (mapping each
letter `A`–`Z` to the two-digit string `str(ord(ch) - ord("A") + 10)`)
and then evaluates it with `Decimal`.  `ibanDigits` models the string
building, `parseNat` models the numeric evaluation. -/

/-- The decimal digit character of `n < 10` (`'0'` + n). -/
def digitChar (n : Nat) : Char := Char.ofNat (48 + n)

/-- The string `str(n)` for `n < 100` (enough for the letter values
`10..35` and the generator's checksum candidates `1..99`). -/
def natStr (n : Nat) : List Char :=
  if n < 10 then [digitChar n] else [digitChar (n / 10), digitChar (n % 10)]

/-- Numeric value of a decimal digit string (`Decimal(num)` on a string of
digit characters). -/
def parseNat (l : List Char) : Nat :=
  l.foldl (fun acc c => acc * 10 + (c.toNat - 48)) 0

/-- The digit-expansion loop shared by `iban_validator` and
`iban_generator`:

    for ch in s:
        if ch not in digits:
            ch = str(ord(ch) - ord("A") + 10)
        num += ch

Letter characters are replaced by the decimal digits of
`ord(ch) - ord('A') + 10` (for `A`–`Z` this is `10..35`, two digits). -/
def ibanDigits : List Char → List Char
  | [] => []
  | c :: rest =>
    (if pyIsDigit c then [c] else natStr (c.toNat - 55)) ++ ibanDigits rest

/-- `"{:02}".format(checksum)` for `checksum ≤ 99`: two zero-padded
decimal digits. -/
def twoDigit (n : Nat) : List Char := [digitChar (n / 10), digitChar (n % 10)]

/-! ## IBAN validator and generator (`validators.py` lines 169–237)

The registry `IBAN_LENGTH_BY_COUNTRY` lives in `jutil/bank_const_iban.py`,
which is not among the available sources; both functions are therefore
parameterised by the registry `reg`, an association list from 2-letter
country code to expected total IBAN length. -/

/-- `v[:2].upper()` — uppercase of a string, character-wise ASCII. -/
def strUpper (s : String) : String := ⟨s.data.map pyToUpper⟩

/-- `iban_validator(v0)`:

    v = iban_filter(v0)
    if not v: raise ValidationError(..., code="invalid_iban")
    country = v[:2].upper()
    if country not in IBAN_LENGTH_BY_COUNTRY:
        raise ValidationError(..., code="invalid_country_code")
    iban_len = IBAN_LENGTH_BY_COUNTRY[country]
    if iban_len != len(v): raise ValidationError(..., code="invalid_iban")
    if iban_len <= 26:
        num = <digit expansion of v[4:] + v[0:4]>
        if Decimal(num) % Decimal(97) != Decimal(1):
            raise ValidationError(..., code="invalid_iban")
-/
def iban_validator (reg : List (String × Nat)) (v0 : String) : VRes :=
  let v := iban_filter v0
  if v = "" then .err .invalid_iban
  else
    let country := strUpper ⟨v.data.take 2⟩
    match reg.lookup country with
    | none => .err .invalid_country_code
    | some iban_len =>
      if iban_len ≠ v.data.length then .err .invalid_iban
      else if iban_len ≤ 26 then
        if parseNat (ibanDigits (v.data.drop 4 ++ v.data.take 4)) % 97 = 1
        then .ok else .err .invalid_iban
      else .ok

/-- `iban_generator(country_code)` for a non-empty `country_code`
argument (the empty-argument branch draws a random supported country and
is not modelled).  The random BBAN draw — `nlen - 4` characters chosen
from `"0123456789"` — is modelled by the explicit parameter `bban`:

    if country_code not in IBAN_LENGTH_BY_COUNTRY:
        raise ValidationError(..., code="invalid_country_code")
    nlen = IBAN_LENGTH_BY_COUNTRY[country_code]
    if nlen > 26: raise ValidationError(..., code="invalid_iban")
    bban = <nlen - 4 random digit characters>
    num0 = <digit expansion of bban + country_code>
    for checksum in range(1, 100):
        num = num0 + <digit expansion of "{:02}".format(checksum)>
        if Decimal(num) % Decimal(97) == Decimal(1):
            return country_code + checksum_str + bban
    raise ValidationError(...)  # should not get here
-/
def iban_generator (reg : List (String × Nat)) (country_code : String)
    (bban : List Char) : StrRes :=
  match reg.lookup country_code with
  | none => .exn .validationError
  | some nlen =>
    if 26 < nlen then .exn .validationError
    else
      let num0 := ibanDigits (bban ++ country_code.data)
      match (List.range' 1 99).find?
          (fun checksum =>
            parseNat (num0 ++ ibanDigits (twoDigit checksum)) % 97 == 1) with
      | some checksum => .ok ⟨country_code.data ++ twoDigit checksum ++ bban⟩
      | none => .exn .validationError

/-- Modelled from the spec: the registry `IBAN_LENGTH_BY_COUNTRY` of
`jutil/bank_const_iban.py` is missing from the available sources.  The
spec describes it as a static mapping from 2-letter ISO country code to
expected total IBAN length; its only entry forced by the spec's known
vectors (`iban_validator("FI2112345600000785")` succeeds) is
`FI ↦ 18`, which is all the concrete witnesses below need. -/
def IBAN_LENGTH_BY_COUNTRY : List (String × Nat) := [("FI", 18)]


/-! ## Finnish payment reference (`validators.py` lines 393–417) -/

/-- The cyclic weights `[7, 3, 1]` indexed by `j % 3`. -/
def fiRefWeight : Nat → Nat
  | 0 => 7
  | 1 => 3
  | _ => 1

/-- The loop

    for j in range(vlen):
        weighed_sum += int(v[vlen - 1 - j]) * weights[j % 3]

running over the reversed digit list, carrying the running index `j`. -/
def fiRefSumFrom : Nat → List Char → Nat
  | _, [] => 0
  | j, c :: rest => (c.toNat - 48) * fiRefWeight (j % 3) + fiRefSumFrom (j + 1) rest

/-- `weighed_sum` of `fi_payment_reference_number`: digits are consumed
from least significant to most significant (`v[vlen-1-j]`). -/
def fiRefSum (v : List Char) : Nat := fiRefSumFrom 0 v.reverse

/-- `fi_payment_reference_number(num)`:

    v = STRIP_WHITESPACE.sub("", num)
    if digit_filter(v) != v: raise ValidationError(...)
    v = v.lstrip("0")
    if len(v) < 3: raise ValidationError(...)
    <weighted sum loop>
    return v + str((10 - (weighed_sum % 10)) % 10)
-/
def fi_payment_reference_number (num : String) : StrRes :=
  let v := pyStripAllWs num.data
  if (digit_filter ⟨v⟩).data ≠ v then .exn .validationError
  else
    let v := v.dropWhile (fun c => c == '0')
    if v.length < 3 then .exn .validationError
    else .ok ⟨v ++ [digitChar ((10 - fiRefSum v % 10) % 10)]⟩


/-! ## Finnish company org-id validator (`validators.py` lines 462–489) -/

/-- Python slice `v[-2:-1]`: the single character before the last one, or
empty when the string has fewer than 2 characters. -/
def sliceM2M1 (l : List Char) : List Char :=
  (l.take (l.length - 1)).drop (l.length - 2)

/-- Python slice `v[-1:]`: the last character, or empty. -/
def sliceM1 (l : List Char) : List Char := l.drop (l.length - 1)

/-- `v.replace("-", "", 1)`: remove the first `'-'` occurrence. -/
def removeFirstDash : List Char → List Char
  | [] => []
  | c :: rest => if c = '-' then rest else c :: removeFirstDash rest

/-- The weighted sum with `multipliers = (7, 9, 10, 5, 8, 4, 2)`:
`x = Σ int(v[i]) * multipliers[i]` over `i in range(7)`. -/
def fiOrgSumWith : List Nat → List Char → Nat
  | [], _ => 0
  | _, [] => 0
  | m :: ms, c :: cs => (c.toNat - 48) * m + fiOrgSumWith ms cs

/-- The org-id multiplier tuple `(7, 9, 10, 5, 8, 4, 2)`. -/
def fiOrgMultipliers : List Nat := [7, 9, 10, 5, 8, 4, 2]

/-- `fi_company_org_id_validator(v0)`:

    v = re.sub(r"\s+", "", v0)
    prefix = v[:2]                  # either numeric or FI is ok
    v = fi_company_org_id_filter(v)
    if v[:2] == prefix: prefix = "FI"
    if v[-2:-1] != "-" or prefix != "FI": raise (invalid_company_org_id)
    v = v.replace("-", "", 1)
    if len(v) != 8: raise (invalid_company_org_id)
    x = <weighted sum of first 7 digits>
    remainder = x % 11
    if remainder == 1: raise (invalid_company_org_id)
    if remainder >= 2:
        if str(11 - remainder) != v[-1:]: raise (invalid_company_org_id)
    # remainder == 0 falls through with no check-digit comparison
-/
def fi_company_org_id_validator (v0 : String) : VRes :=
  let v1 := pyStripAllWs v0.data
  let pfx := v1.take 2
  let v2 := (fi_company_org_id_filter ⟨v1⟩).data
  let pfx2 := if v2.take 2 = pfx then ['F', 'I'] else pfx
  if sliceM2M1 v2 ≠ ['-'] ∨ pfx2 ≠ ['F', 'I'] then .err .invalid_company_org_id
  else
    let v3 := removeFirstDash v2
    if v3.length ≠ 8 then .err .invalid_company_org_id
    else
      let remainder := fiOrgSumWith fiOrgMultipliers v3 % 11
      if remainder = 1 then .err .invalid_company_org_id
      else if 2 ≤ remainder then
        if [digitChar (11 - remainder)] ≠ sliceM1 v3 then .err .invalid_company_org_id
        else .ok
      else .ok


/-! ## Finnish SSN validator (`validators.py` lines 388–389, 505–535) -/

/-- The character class `[+-A]` of `FI_SSN_VALIDATOR`
(`^\d{6}[+-A]\d{3}[\d\w]$`): inside a character class `+-A` is the
*range* from `'+'` (code 43) to `'A'` (code 65), not the three characters
`+`, `-`, `A`. -/
def fiSsnSepClass (c : Char) : Bool := 43 ≤ c.toNat && c.toNat ≤ 65

/-- The class `[\d\w]` (ASCII level): digit, letter or underscore. -/
def fiSsnLastClass (c : Char) : Bool :=
  pyIsDigit c || pyIsUpperAlpha c || pyIsLowerAlpha c || c == '_'

/-- `FI_SSN_VALIDATOR.fullmatch(v)` for `^\d{6}[+-A]\d{3}[\d\w]$`:
exactly 11 characters, six digits, a separator-class character, three
digits and a word-class character. -/
def fiSsnRegexMatch : List Char → Bool
  | [a, b, c, d, e, f, g, h, i, j, k] =>
    pyIsDigit a && pyIsDigit b && pyIsDigit c && pyIsDigit d && pyIsDigit e &&
    pyIsDigit f && fiSsnSepClass g && pyIsDigit h && pyIsDigit i &&
    pyIsDigit j && fiSsnLastClass k
  | _ => false

/-- The check-character table of `fi_ssn_validator`: remainders `10..30`
map to letters (skipping `G`, `I`, `O`, `Q`), others to `str(d)`. -/
def fiSsnCheckChar (d : Nat) : Char :=
  match d with
  | 10 => 'A' | 11 => 'B' | 12 => 'C' | 13 => 'D' | 14 => 'E' | 15 => 'F'
  | 16 => 'H' | 17 => 'J' | 18 => 'K' | 19 => 'L' | 20 => 'M' | 21 => 'N'
  | 22 => 'P' | 23 => 'R' | 24 => 'S' | 25 => 'T' | 26 => 'U' | 27 => 'V'
  | 28 => 'W' | 29 => 'X' | 30 => 'Y'
  | _ => digitChar d

/-- `fi_ssn_validator(v0)`:

    v = fi_ssn_filter(v0)
    if not FI_SSN_VALIDATOR.fullmatch(v): raise (invalid_ssn)
    d = int(Decimal(v[0:6] + v[7:10]) % Decimal(31))
    ch = digits.get(d, str(d))
    if ch != v[-1:]: raise (invalid_ssn)
-/
def fi_ssn_validator (v0 : String) : VRes :=
  let v := (fi_ssn_filter v0).data
  if !fiSsnRegexMatch v then .err .invalid_ssn
  else
    let d := parseNat (v.take 6 ++ (v.drop 7).take 3) % 31
    if [fiSsnCheckChar d] ≠ sliceM1 v then .err .invalid_ssn
    else .ok


/-! ## Swedish bank clearing lookup
(`bank_const_se.py`, `validators.py` lines 657–670) -/

/-- `SE_BANK_CLEARING_LIST` from `jutil/bank_const_se.py`: ordered tuples
`(bank_name, range_begin, range_end, account_digit_count)`. -/
def SE_BANK_CLEARING_LIST : List (String × String × String × Nat) :=
  [("Nordea AB", "1100", "1199", 7),
   ("Danske Bank", "1200", "1399", 7),
   ("Nordea AB", "1401", "2099", 7),
   ("Ålandsbanken Abp", "2300", "2399", 7),
   ("Danske Bank", "2400", "2499", 7),
   ("Nordea AB", "3000", "3299", 7),
   ("Nordea AB Personkonto", "3300", "3300", 10),
   ("Nordea AB", "3301", "3399", 7),
   ("Länsförsäkringar Bank AB", "3400", "3409", 7),
   ("Nordea AB", "3460", "3599", 7),
   ("Nordea AB", "3600", "3999", 7),
   ("Nordea AB", "4000", "4999", 7),
   ("SEB", "5000", "5999", 7),
   ("Handelsbanken", "6000", "6999", 9),
   ("Swedbank", "7000", "7999", 7),
   ("Swedbank", "8000", "8999", 8),
   ("Länsförsäkringar Bank AB", "9020", "9029", 7),
   ("Citibank", "9040", "9049", 7),
   ("Länsförsäkringar Bank AB", "9060", "9069", 7),
   ("Royal Bank of Scotland", "9090", "9099", 7),
   ("Nordnet Bank", "9100", "9109", 7),
   ("SEB", "9120", "9124", 7),
   ("SEB", "9130", "9149", 7),
   ("Skandiabanken AB", "9150", "9169", 7),
   ("IKANO Banken AB", "9170", "9179", 7),
   ("Danske Bank", "9180", "9189", 7),
   ("Den Norske Bank", "9190", "9199", 7),
   ("Marginalen Bank", "9230", "9239", 7),
   ("SBAB Bank AB", "9250", "9259", 7),
   ("ICA Banken AB", "9270", "9279", 7),
   ("Resurs Bank AB", "9280", "9289", 7),
   ("Landshypotek AB", "9390", "9399", 7),
   ("Forex Bank AB", "9400", "9449", 7),
   ("Santander Consumer Bank AS", "9460", "9469", 7),
   ("BNP Paribas Fortis SA/NV", "9470", "9470", 7),
   ("Nordea AB", "9500", "9549", 10),
   ("Avanza Bank", "9550", "9569", 7),
   ("Sparbanken Syd", "9570", "9579", 8),
   ("Erik Penser Bankaktiebolag", "9590", "9599", 7),
   ("Lån og Spar Bank Sverige", "9630", "9639", 7),
   ("Nordax Bank AB", "9640", "9649", 7),
   ("Med Mera Bank AB", "9650", "9659", 7),
   ("Svea Bank", "9660", "9669", 7),
   ("JAK Medlemsbank", "9670", "9679", 7),
   ("Bluestep Finans AB", "9680", "9689", 7),
   ("Ekobanken", "9700", "9709", 7),
   ("Riksgälden", "9880", "9889", 7),
   ("Nordea AB", "9960", "9969", 10)]

/-- Whether a clearing code falls in an entry's range: the Python test
`begin <= clearing <= end` (lexicographic string comparison). -/
def seEntryMatches (clearing : List Char) (e : String × String × String × Nat) : Bool :=
  pyStrLe e.2.1.data clearing && pyStrLe clearing e.2.2.1.data

/-- The `for name, begin, end, acc_digits in SE_BANK_CLEARING_LIST` loop:
first entry whose range contains the clearing code wins. -/
def seLookupClearing (clearing : List Char) :
    List (String × String × String × Nat) → String × Option Nat
  | [] => ("", none)
  | e :: rest =>
    if seEntryMatches clearing e then (e.1, some e.2.2.2)
    else seLookupClearing clearing rest

/-- `se_clearing_code_bank_info(account_number)`:

    v = iban_filter(account_number)
    if v.startswith("SE"): v = v[4:]
    clearing = v[:4]
    for name, begin, end, acc_digits in SE_BANK_CLEARING_LIST:
        if begin <= clearing <= end: return name, acc_digits
    return "", None
-/
def se_clearing_code_bank_info (account_number : String) : String × Option Nat :=
  let v := (iban_filter account_number).data
  let v := if v.take 2 = ['S', 'E'] then v.drop 4 else v
  seLookupClearing (v.take 4) SE_BANK_CLEARING_LIST


/-! ## Claim-side (specification-worded) definitions, for refinement
comparison against the source-translated definitions above -/

/-- The shape claimed by the spec for `phone_filter` output: only digits
apart from at most one `'+'`, which can occur only as the first
character.  (Transcribes the claim's words, for comparison with the
actual `phone_filter`.) -/
def phoneShapeSpec (s : String) : Bool :=
  match s.data with
  | [] => true
  | c :: rest => (c == '+' || pyIsDigit c) && rest.all pyIsDigit

/-- The spec's wording of the Finnish reference weighted sum: "the sum
over digits from least significant to most significant weighted
cyclically by 7, 3, 1" — digit `j` of the reversed string contributes
`digit * weight(j mod 3)`. -/
def fiRefClaimSum (v : List Char) : Nat :=
  (v.reverse.enum.map (fun p => (p.2.toNat - 48) * fiRefWeight (p.1 % 3))).sum

/-- The input whose leading zeros have been stripped, as the claim
describes it: whitespace removed, then `0`-prefix stripped. -/
def fiRefStripped (s : String) : List Char :=
  (pyStripAllWs s.data).dropWhile (fun c => c == '0')

/-- The claim's wording of the IBAN mod-97 acceptance test: the numeral
obtained from the filtered value by moving the first 4 characters to the
end and mapping each letter `A`–`Z` to `10`–`35` is congruent to 1
modulo 97. -/
def ibanClaimChecksum (v : String) : Prop :=
  parseNat (ibanDigits (v.data.drop 4 ++ v.data.take 4)) % 97 = 1

instance (v : String) : Decidable (ibanClaimChecksum v) :=
  inferInstanceAs (Decidable (_ = _))

/-! # Helper lemmas -/

/-! ## Character-level facts -/

theorem pyToUpper_eq_self {c : Char} (h : ¬ (97 ≤ c.toNat ∧ c.toNat ≤ 122)) :
    pyToUpper c = c := by
  unfold pyToUpper Char.toUpper
  rw [if_neg]
  omega

theorem pyToUpper_eq_ofNat {c : Char} (h1 : 97 ≤ c.toNat) (h2 : c.toNat ≤ 122) :
    pyToUpper c = Char.ofNat (c.toNat - 32) := by
  unfold pyToUpper Char.toUpper
  rw [if_pos]
  omega

theorem pyToLower_eq_self {c : Char} (h : ¬ (65 ≤ c.toNat ∧ c.toNat ≤ 90)) :
    pyToLower c = c := by
  unfold pyToLower Char.toLower
  rw [if_neg]
  omega

theorem pyToLower_eq_ofNat {c : Char} (h1 : 65 ≤ c.toNat) (h2 : c.toNat ≤ 90) :
    pyToLower c = Char.ofNat (c.toNat + 32) := by
  unfold pyToLower Char.toLower
  rw [if_pos]
  omega

theorem pyToUpper_idem (c : Char) : pyToUpper (pyToUpper c) = pyToUpper c := by
  by_cases h : 97 ≤ c.toNat ∧ c.toNat ≤ 122
  · obtain ⟨h1, h2⟩ := h
    rw [pyToUpper_eq_ofNat h1 h2]
    set n := c.toNat with hn
    interval_cases n <;> decide
  · rw [pyToUpper_eq_self h, pyToUpper_eq_self h]

theorem pyToLower_idem (c : Char) : pyToLower (pyToLower c) = pyToLower c := by
  by_cases h : 65 ≤ c.toNat ∧ c.toNat ≤ 90
  · obtain ⟨h1, h2⟩ := h
    rw [pyToLower_eq_ofNat h1 h2]
    set n := c.toNat with hn
    interval_cases n <;> decide
  · rw [pyToLower_eq_self h, pyToLower_eq_self h]

theorem pyIsSpace_pyToUpper (c : Char) : pyIsSpace (pyToUpper c) = pyIsSpace c := by
  by_cases h : 97 ≤ c.toNat ∧ c.toNat ≤ 122
  · obtain ⟨h1, h2⟩ := h
    rw [pyToUpper_eq_ofNat h1 h2]
    have hs : pyIsSpace c = false := by simp [pyIsSpace]; omega
    rw [hs]
    set n := c.toNat with hn
    interval_cases n <;> decide
  · rw [pyToUpper_eq_self h]

theorem pyIsSpace_pyToLower (c : Char) : pyIsSpace (pyToLower c) = pyIsSpace c := by
  by_cases h : 65 ≤ c.toNat ∧ c.toNat ≤ 90
  · obtain ⟨h1, h2⟩ := h
    rw [pyToLower_eq_ofNat h1 h2]
    have hs : pyIsSpace c = false := by simp [pyIsSpace]; omega
    rw [hs]
    set n := c.toNat with hn
    interval_cases n <;> decide
  · rw [pyToLower_eq_self h]

theorem pyIsDigit_not_space {c : Char} (h : pyIsDigit c = true) :
    pyIsSpace c = false := by
  simp [pyIsDigit] at h
  simp [pyIsSpace]
  omega

theorem pyIsDigit_toUpper_fix {c : Char} (h : pyIsDigit c = true) :
    pyToUpper c = c := by
  simp [pyIsDigit] at h
  exact pyToUpper_eq_self (by omega)

theorem pyIsDigit_ne_dash {c : Char} (h : pyIsDigit c = true) : c ≠ '-' := by
  intro he
  subst he
  simp [pyIsDigit] at h

/-! ## Generic list facts -/

theorem map_eq_self_of_fix {f : Char → Char} {l : List Char}
    (h : ∀ c ∈ l, f c = c) : l.map f = l := by
  induction l with
  | nil => rfl
  | cons a t ih =>
    simp only [List.map_cons, h a (List.mem_cons_self a t)]
    rw [ih (fun c hc => h c (List.mem_cons_of_mem a hc))]

/-- The Swedish clearing loop is a first-match search over the table. -/
theorem seLookupClearing_eq_find (clearing : List Char)
    (l : List (String × String × String × Nat)) :
    seLookupClearing clearing l =
      match l.find? (seEntryMatches clearing) with
      | some e => (e.1, some e.2.2.2)
      | none => ("", none) := by
  induction l with
  | nil => rfl
  | cons e rest ih =>
    by_cases h : seEntryMatches clearing e = true
    · simp [seLookupClearing, List.find?_cons_of_pos, h]
    · rw [List.find?_cons_of_neg _ (by simpa using h)]
      simpa [seLookupClearing, h] using ih

theorem pyStripAllWs_of_digits {l : List Char}
    (h : ∀ c ∈ l, pyIsDigit c = true) : pyStripAllWs l = l := by
  apply List.filter_eq_self.mpr
  intro a ha
  simp [pyIsDigit_not_space (h a ha)]

theorem filter_digits_eq_self {l : List Char}
    (h : ∀ c ∈ l, pyIsDigit c = true) : l.filter pyIsDigit = l :=
  List.filter_eq_self.mpr h

/-! # Claim theorems -/

/-- C9: `se_clearing_code_bank_info` takes the first 4 characters of the
account number (after stripping a 4-character `SE` IBAN prefix when
present) and returns the bank name and account digit count of the first
entry of the ordered Swedish clearing list whose string range contains
the clearing code lexicographically, and returns `("", none)` without
raising when no range matches; in particular
`se_clearing_code_bank_info "6789" = ("Handelsbanken", 9)`.  (The
function is total, so it never raises.) -/
theorem c9_se_clearing_lookup :
    (∀ acct : String,
      se_clearing_code_bank_info acct =
        (let v0 := (iban_filter acct).data
         let v := if v0.take 2 = ['S', 'E'] then v0.drop 4 else v0
         match SE_BANK_CLEARING_LIST.find? (seEntryMatches (v.take 4)) with
         | some e => (e.1, some e.2.2.2)
         | none => ("", none))) ∧
    se_clearing_code_bank_info "6789" = ("Handelsbanken", some 9) ∧
    se_clearing_code_bank_info "SE4550000000058398257466" = ("SEB", some 7) ∧
    se_clearing_code_bank_info "1000" = ("", none) := by
  refine ⟨fun acct => ?_, by decide, by decide, by decide⟩
  simp only [se_clearing_code_bank_info]
  rw [seLookupClearing_eq_find]

/-- C10: the `FI_SSN_VALIDATOR` character class `[+-A]` is the ASCII
range `'+'`(43)–`'A'`(65), which contains the decimal digits, and the
check character depends only on positions 1–6 and 8–10; hence the valid
SSN `231298-965X` remains accepted when its century separator `'-'` is
replaced by the digit `'5'`, which is none of `'+'`, `'-'`, `'A'`. -/
theorem c10_fi_ssn_separator_range :
    fi_ssn_validator "231298-965X" = .ok ∧
    fi_ssn_validator "2312985965X" = .ok ∧
    ('5' ≠ '+' ∧ '5' ≠ '-' ∧ '5' ≠ 'A' ∧ pyIsDigit '5' = true) ∧
    "2312985965X".data =
      "231298-965X".data.take 6 ++ '5' :: "231298-965X".data.drop 7 := by
  exact ⟨by decide, by decide, by decide, by decide⟩

/-- C8: every structurally well-formed Finnish company org-id input —
8 digits after normalization, given either bare or with the `FI` prefix —
whose first 7 digits have weighted sum `≡ 0 (mod 11)` under the
multipliers `(7,9,10,5,8,4,2)` is accepted by
`fi_company_org_id_validator` regardless of the value of its 8th (check)
digit: the `remainder == 0` case performs no check-digit comparison.
(The sum ranges only over the first 7 characters because the multiplier
list has 7 entries.) -/
theorem c8_org_id_remainder_zero (ds : List Char)
    (hlen : ds.length = 8) (hdig : ∀ c ∈ ds, pyIsDigit c = true)
    (hrem : fiOrgSumWith fiOrgMultipliers ds % 11 = 0) :
    fi_company_org_id_validator ⟨ds⟩ = .ok ∧
    fi_company_org_id_validator ⟨'F' :: 'I' :: ds⟩ = .ok := by
  obtain ⟨x1, x2, x3, x4, x5, x6, x7, x8, hrest⟩ :
      ∃ a b c d e f g h, ds = [a, b, c, d, e, f, g, h] := by
    match ds, hlen with
    | [a, b, c, d, e, f, g, h], _ => exact ⟨a, b, c, d, e, f, g, h, rfl⟩
  subst hrest
  have hd1 := hdig x1 (by simp)
  have hd2 := hdig x2 (by simp)
  have hd3 := hdig x3 (by simp)
  have hd4 := hdig x4 (by simp)
  have hd5 := hdig x5 (by simp)
  have hd6 := hdig x6 (by simp)
  have hd7 := hdig x7 (by simp)
  have hd8 := hdig x8 (by simp)
  have hne1 := pyIsDigit_ne_dash hd1
  have hne2 := pyIsDigit_ne_dash hd2
  have hne3 := pyIsDigit_ne_dash hd3
  have hne4 := pyIsDigit_ne_dash hd4
  have hne5 := pyIsDigit_ne_dash hd5
  have hne6 := pyIsDigit_ne_dash hd6
  have hne7 := pyIsDigit_ne_dash hd7
  have hnF : x1 ≠ 'F' := by
    intro he
    subst he
    simp [pyIsDigit] at hd1
  have hsp1 := pyIsDigit_not_space hd1
  have hsp2 := pyIsDigit_not_space hd2
  have hsp3 := pyIsDigit_not_space hd3
  have hsp4 := pyIsDigit_not_space hd4
  have hsp5 := pyIsDigit_not_space hd5
  have hsp6 := pyIsDigit_not_space hd6
  have hsp7 := pyIsDigit_not_space hd7
  have hsp8 := pyIsDigit_not_space hd8
  constructor
  · simp only [fi_company_org_id_validator, fi_company_org_id_filter, pyStripAllWs,
      sliceM2M1, sliceM1, List.filter, hsp1, hsp2, hsp3, hsp4, hsp5, hsp6, hsp7, hsp8,
      hd1, hd2, hd3, hd4, hd5, hd6, hd7, hd8, removeFirstDash,
      hne1, hne2, hne3, hne4, hne5, hne6, hne7]
    simp only [List.length_cons, List.length_nil, List.take, List.drop,
      removeFirstDash, hne1, hne2, hne3, hne4, hne5, hne6, hne7]
    simp [hrem]
  · simp only [fi_company_org_id_validator, fi_company_org_id_filter, pyStripAllWs,
      sliceM2M1, sliceM1, List.filter, hsp1, hsp2, hsp3, hsp4, hsp5, hsp6, hsp7, hsp8,
      hd1, hd2, hd3, hd4, hd5, hd6, hd7, hd8, removeFirstDash,
      hne1, hne2, hne3, hne4, hne5, hne6, hne7, hnF]
    simp only [List.length_cons, List.length_nil, List.take, List.drop,
      removeFirstDash, hne1, hne2, hne3, hne4, hne5, hne6, hne7]
    simp [hrem]

theorem c8_org_id_remainder_zero_witness :
    fi_company_org_id_validator "00000005" = .ok ∧
    fi_company_org_id_validator "FI00000005" = .ok := by
  have h := c8_org_id_remainder_zero "00000005".data (by decide) (by decide) (by decide)
  exact ⟨h.1, h.2⟩

theorem digit_filter_data (l : List Char) :
    (digit_filter ⟨l⟩).data = l.filter pyIsDigit := by
  by_cases h : (⟨l⟩ : String) = ""
  · have hl : l = [] := congrArg String.data h
    subst hl
    rw [h]
    rfl
  · simp [digit_filter, h]

theorem fiRefSumFrom_eq_enumFrom (l : List Char) : ∀ j : Nat,
    fiRefSumFrom j l =
      ((List.enumFrom j l).map (fun p => (p.2.toNat - 48) * fiRefWeight (p.1 % 3))).sum := by
  induction l with
  | nil => intro j; rfl
  | cons a t ih =>
    intro j
    simp only [fiRefSumFrom, List.enumFrom, List.map_cons, List.sum_cons, ih (j + 1)]

/-- The source's reversed-index loop computes the claim's weighted sum. -/
theorem fiRefSum_eq_claim (v : List Char) : fiRefSum v = fiRefClaimSum v := by
  unfold fiRefSum fiRefClaimSum List.enum
  exact fiRefSumFrom_eq_enumFrom v.reverse 0

/-- C7: `fi_payment_reference_number` on a whitespace-free numeric input
with at least 3 digits remaining after stripping leading zeros appends
the check digit `(10 - (S mod 10)) mod 10`, where `S` is the weighted sum
of the digits from least significant to most significant under the
cyclic weights 7, 3, 1; non-numeric inputs and inputs with fewer than 3
remaining digits raise a `ValidationError`. -/
theorem c7_fi_payment_reference (s : String) :
    ((∀ c ∈ pyStripAllWs s.data, pyIsDigit c = true) →
      3 ≤ (fiRefStripped s).length →
      fi_payment_reference_number s =
        .ok ⟨fiRefStripped s ++
             [digitChar ((10 - fiRefClaimSum (fiRefStripped s) % 10) % 10)]⟩) ∧
    ((¬ ∀ c ∈ pyStripAllWs s.data, pyIsDigit c = true) →
      fi_payment_reference_number s = .exn .validationError) ∧
    ((fiRefStripped s).length < 3 →
      fi_payment_reference_number s = .exn .validationError) := by
  have hdd := digit_filter_data (pyStripAllWs s.data)
  refine ⟨fun hdig hlen => ?_, fun hnd => ?_, fun hlt => ?_⟩
  · simp only [fi_payment_reference_number]
    rw [hdd, filter_digits_eq_self hdig, if_neg (by simp)]
    unfold fiRefStripped at hlen
    rw [if_neg (by omega)]
    rw [fiRefSum_eq_claim]
    rfl
  · simp only [fi_payment_reference_number]
    rw [hdd, if_pos (fun he => hnd (List.filter_eq_self.mp he))]
  · by_cases hd : ∀ c ∈ pyStripAllWs s.data, pyIsDigit c = true
    · simp only [fi_payment_reference_number]
      rw [hdd, filter_digits_eq_self hd, if_neg (by simp)]
      unfold fiRefStripped at hlt
      rw [if_pos hlt]
    · simp only [fi_payment_reference_number]
      rw [hdd, if_pos (fun he => hd (List.filter_eq_self.mp he))]

theorem c7_fi_payment_reference_witness :
    fi_payment_reference_number "100" = .ok "1009" := by
  have h := (c7_fi_payment_reference "100").1 (by decide) (by decide)
  exact h.trans (by decide)

/-- C5 counterexample: `phone_filter` keeps a `'+'` anywhere, not only
as a single leading character: `phone_filter "1+2" = "1+2"`, whose
second character is a non-leading `'+'`, contradicting the claimed
output shape. -/
theorem c5_counterexample :
    phone_filter "1+2" = "1+2" ∧ phoneShapeSpec (phone_filter "1+2") = false := by
  exact ⟨by decide, by decide⟩

/-- C5 (amended): `phone_filter` removes every character except digits
and `'+'` characters; a `'+'` is kept wherever it occurs, not only as a
single leading character.  Every output character is a `'+'` or a digit. -/
theorem c5_phone_filter_chars (s : String) :
    (phone_filter s).data = s.data.filter (fun c => c == '+' || pyIsDigit c) ∧
    ∀ c ∈ (phone_filter s).data, c = '+' ∨ pyIsDigit c = true := by
  have hdata : (phone_filter s).data = s.data.filter (fun c => c == '+' || pyIsDigit c) := by
    by_cases h : s = ""
    · subst h
      rfl
    · simp only [phone_filter, if_neg h]
      rfl
  refine ⟨hdata, fun c hc => ?_⟩
  rw [hdata] at hc
  have := (List.mem_filter.mp hc).2
  simpa using this

/-- C4 counterexample: `country_code_filter(None)` raises
`AttributeError` (`None.strip()`), so not every filter returns `""` for
every falsy input without raising. -/
theorem c4_counterexample :
    country_code_filter_py none = .exn .attrError ∧
    country_code_filter_py none ≠ .ok "" := by
  exact ⟨by decide, by decide⟩

/-- C4 (amended): the filters guarded by `if v else ""` (phone, email,
passport, IBAN) return `""` for `None` and for `""` without raising; the
unguarded filters (country code, BIC, Finnish SSN, Swedish SSN, Finnish
company org-id) return `""` for the empty string and never raise on any
actual string, but raise `AttributeError`/`TypeError` on `None`. -/
theorem c4_filters_none_empty (s : String) :
    (phone_filter_py none = .ok "" ∧ email_filter_py none = .ok "" ∧
     passport_filter_py none = .ok "" ∧ iban_filter_py none = .ok "") ∧
    (country_code_filter_py none = .exn .attrError ∧
     bic_filter_py none = .exn .attrError ∧
     fi_ssn_filter_py none = .exn .attrError ∧
     se_ssn_filter_py none = .exn .attrError ∧
     fi_company_org_id_filter_py none = .exn .typeError) ∧
    (phone_filter "" = "" ∧ email_filter "" = "" ∧ passport_filter "" = "" ∧
     country_code_filter "" = "" ∧ bic_filter "" = "" ∧ iban_filter "" = "" ∧
     fi_ssn_filter "" = "" ∧ se_ssn_filter "" = "" ∧
     fi_company_org_id_filter "" = "") ∧
    (phone_filter_py (some s) = .ok (phone_filter s) ∧
     email_filter_py (some s) = .ok (email_filter s) ∧
     passport_filter_py (some s) = .ok (passport_filter s) ∧
     country_code_filter_py (some s) = .ok (country_code_filter s) ∧
     bic_filter_py (some s) = .ok (bic_filter s) ∧
     iban_filter_py (some s) = .ok (iban_filter s) ∧
     fi_ssn_filter_py (some s) = .ok (fi_ssn_filter s) ∧
     se_ssn_filter_py (some s) = .ok (se_ssn_filter s) ∧
     fi_company_org_id_filter_py (some s) = .ok (fi_company_org_id_filter s)) := by
  refine ⟨⟨rfl, rfl, rfl, rfl⟩, ⟨rfl, rfl, rfl, rfl, rfl⟩,
    ⟨by decide, by decide, by decide, by decide, by decide, by decide,
     by decide, by decide, by decide⟩,
    ⟨rfl, rfl, rfl, rfl, rfl, rfl, rfl, rfl, rfl⟩⟩


theorem dropWhile_head_not {p : Char → Bool} {l t : List Char} {a : Char}
    (h : l.dropWhile p = a :: t) : p a = false := by
  induction l with
  | nil => simp [List.dropWhile] at h
  | cons x xs ih =>
    rw [List.dropWhile_cons] at h
    by_cases hx : p x = true
    · rw [if_pos hx] at h
      exact ih h
    · rw [if_neg hx] at h
      injection h with h1 h2
      rw [← h1]
      simpa using hx

theorem dropWhile_eq_self_of {p : Char → Bool} {l : List Char}
    (h : ∀ a t, l = a :: t → p a = false) : l.dropWhile p = l := by
  cases l with
  | nil => rfl
  | cons a t =>
    rw [List.dropWhile_cons, h a t rfl]
    simp

theorem mem_dropWhile_imp {p : Char → Bool} {l : List Char} {c : Char}
    (h : c ∈ l.dropWhile p) : c ∈ l := by
  rw [← List.takeWhile_append_dropWhile p l]
  exact List.mem_append_right _ h

theorem mem_pyStrip {l : List Char} {c : Char} (h : c ∈ pyStrip l) : c ∈ l := by
  unfold pyStrip pyLStrip at h
  rw [List.mem_reverse] at h
  exact mem_dropWhile_imp (by simpa using mem_dropWhile_imp h)

theorem pyStrip_idem (l : List Char) : pyStrip (pyStrip l) = pyStrip l := by
  unfold pyStrip pyLStrip
  set m := l.dropWhile pyIsSpace with hm
  set rt := m.reverse.dropWhile pyIsSpace with hrt
  have hA : rt.reverse.dropWhile pyIsSpace = rt.reverse := by
    apply dropWhile_eq_self_of
    intro a t he
    have hm2 : m = rt.reverse ++ (m.reverse.takeWhile pyIsSpace).reverse := by
      conv_lhs => rw [← List.reverse_reverse m,
        ← List.takeWhile_append_dropWhile pyIsSpace m.reverse]
      rw [List.reverse_append, hrt]
    rw [he, List.cons_append] at hm2
    rw [hm] at hm2
    exact dropWhile_head_not hm2
  have hB : rt.dropWhile pyIsSpace = rt := by
    apply dropWhile_eq_self_of
    intro a t he
    rw [hrt] at he
    exact dropWhile_head_not he
  rw [hA, List.reverse_reverse, hB]

theorem pyStrip_map_comm {f : Char → Char}
    (hf : ∀ c, pyIsSpace (f c) = pyIsSpace c) (l : List Char) :
    pyStrip (l.map f) = (pyStrip l).map f := by
  have hpf : pyIsSpace ∘ f = pyIsSpace := funext hf
  unfold pyStrip pyLStrip
  rw [List.dropWhile_map, hpf, ← List.map_reverse, List.dropWhile_map, hpf,
    ← List.map_reverse]

theorem filter_idem (p : Char → Bool) (l : List Char) :
    (l.filter p).filter p = l.filter p := by
  rw [List.filter_filter]
  congr 1
  funext a
  exact Bool.and_self (p a)

theorem upper_filter_idem {q : Char → Bool}
    (hq : ∀ c, q c = true → pyToUpper c = c) (l : List Char) :
    ((((l.map pyToUpper).filter q).map pyToUpper).filter q) =
      (l.map pyToUpper).filter q := by
  have hfix : ∀ c ∈ (l.map pyToUpper).filter q, pyToUpper c = c :=
    fun c hc => hq c (List.mem_filter.mp hc).2
  rw [map_eq_self_of_fix hfix]
  exact List.filter_eq_self.mpr (fun c hc => (List.mem_filter.mp hc).2)

theorem lower_strip_idem (l : List Char) :
    pyStrip ((pyStrip (l.map pyToLower)).map pyToLower) =
      pyStrip (l.map pyToLower) := by
  rw [pyStrip_map_comm pyIsSpace_pyToLower, pyStrip_idem]
  apply map_eq_self_of_fix
  intro c hc
  obtain ⟨c0, _, hc0⟩ := List.mem_map.mp (mem_pyStrip hc)
  rw [← hc0, pyToLower_idem]

theorem strip_upper_idem (l : List Char) :
    (pyStrip ((pyStrip l).map pyToUpper)).map pyToUpper =
      (pyStrip l).map pyToUpper := by
  rw [pyStrip_map_comm pyIsSpace_pyToUpper, pyStrip_idem, List.map_map]
  have hup : pyToUpper ∘ pyToUpper = pyToUpper := funext pyToUpper_idem
  rw [hup]

theorem guard_idem (t : List Char → List Char) (ht : ∀ l, t (t l) = t l)
    (v : String) :
    (if (if v = "" then "" else (⟨t v.data⟩ : String)) = "" then ""
     else (⟨t (if v = "" then "" else (⟨t v.data⟩ : String)).data⟩ : String)) =
    (if v = "" then "" else (⟨t v.data⟩ : String)) := by
  by_cases h : v = ""
  · subst h
    simp
  · rw [if_neg h]
    by_cases h2 : (⟨t v.data⟩ : String) = ""
    · rw [if_pos h2]
      exact h2.symm
    · rw [if_neg h2]
      exact congrArg String.mk (ht v.data)

theorem keep_upper_fix_passport (c : Char) (hc : passportKeep c = true) :
    pyToUpper c = c := by
  have h90 : c.toNat ≤ 90 := by
    simp only [passportKeep, pyIsUpperAlpha, pyIsDigit, Bool.or_eq_true,
      Bool.and_eq_true, decide_eq_true_eq, beq_iff_eq] at hc
    rcases hc with (h | h) | h
    · subst h
      decide
    · omega
    · omega
  exact pyToUpper_eq_self (by omega)

theorem keep_upper_fix_iban (c : Char) (hc : ibanKeep c = true) :
    pyToUpper c = c := by
  have h90 : c.toNat ≤ 90 := by
    simp only [ibanKeep, pyIsUpperAlpha, pyIsDigit, Bool.or_eq_true,
      Bool.and_eq_true, decide_eq_true_eq] at hc
    rcases hc with h | h
    · omega
    · omega
  exact pyToUpper_eq_self (by omega)

theorem keep_upper_fix_fi_ssn (c : Char) (hc : fiSsnKeep c = true) :
    pyToUpper c = c := by
  have h90 : c.toNat ≤ 90 := by
    simp only [fiSsnKeep, pyIsUpperAlpha, pyIsDigit, Bool.or_eq_true,
      Bool.and_eq_true, decide_eq_true_eq, beq_iff_eq] at hc
    rcases hc with ((h | h) | h) | h
    · omega
    · omega
    · subst h
      decide
    · subst h
      decide
  exact pyToUpper_eq_self (by omega)

theorem keep_upper_fix_se_ssn (c : Char) (hc : seSsnKeep c = true) :
    pyToUpper c = c := by
  have h90 : c.toNat ≤ 90 := by
    simp only [seSsnKeep, pyIsDigit, Bool.or_eq_true,
      Bool.and_eq_true, decide_eq_true_eq, beq_iff_eq] at hc
    rcases hc with h | h
    · subst h
      decide
    · omega
  exact pyToUpper_eq_self (by omega)

theorem fi_company_org_id_filter_idem (v : String) :
    fi_company_org_id_filter (fi_company_org_id_filter v) =
      fi_company_org_id_filter v := by
  simp only [fi_company_org_id_filter]
  set d := v.data.filter pyIsDigit with hd
  have hdall : ∀ c ∈ d, pyIsDigit c = true := fun c hc => (List.mem_filter.mp hc).2
  by_cases h : 2 ≤ d.length
  · rw [if_pos h]
    have hfo : (d.take (d.length - 1) ++ '-' :: d.drop (d.length - 1)).filter pyIsDigit
        = d := by
      rw [List.filter_append]
      have h1 : (d.take (d.length - 1)).filter pyIsDigit = d.take (d.length - 1) :=
        List.filter_eq_self.mpr (fun c hc => hdall c (List.take_subset _ _ hc))
      have h2 : ('-' :: d.drop (d.length - 1)).filter pyIsDigit
          = d.drop (d.length - 1) := by
        rw [List.filter_cons]
        have hnd : pyIsDigit '-' = false := by decide
        rw [hnd]
        simp only [Bool.false_eq_true, if_false]
        exact List.filter_eq_self.mpr (fun c hc => hdall c (List.drop_subset _ _ hc))
      rw [h1, h2, List.take_append_drop]
    show (if 2 ≤ ((d.take (d.length - 1) ++ '-' :: d.drop (d.length - 1)).filter
          pyIsDigit).length then _ else "") = _
    rw [hfo, if_pos h]
  · rw [if_neg h]
    show (if 2 ≤ (List.filter pyIsDigit []).length then _ else "") = ("" : String)
    simp

/-- C6: every filter of the filter layer is idempotent on strings:
`filter (filter x) = filter x` for the phone, email, passport,
country-code, BIC, IBAN, Finnish SSN, Swedish SSN and Finnish company
org-id filters. -/
theorem c6_filters_idempotent (v : String) :
    phone_filter (phone_filter v) = phone_filter v ∧
    email_filter (email_filter v) = email_filter v ∧
    passport_filter (passport_filter v) = passport_filter v ∧
    country_code_filter (country_code_filter v) = country_code_filter v ∧
    bic_filter (bic_filter v) = bic_filter v ∧
    iban_filter (iban_filter v) = iban_filter v ∧
    fi_ssn_filter (fi_ssn_filter v) = fi_ssn_filter v ∧
    se_ssn_filter (se_ssn_filter v) = se_ssn_filter v ∧
    fi_company_org_id_filter (fi_company_org_id_filter v) =
      fi_company_org_id_filter v := by
  refine ⟨?_, ?_, ?_, ?_, ?_, ?_, ?_, ?_, ?_⟩
  · exact guard_idem (fun l => l.filter phoneKeep) (filter_idem phoneKeep) v
  · exact guard_idem (fun l => pyStrip (l.map pyToLower)) lower_strip_idem v
  · exact guard_idem (fun l => (l.map pyToUpper).filter passportKeep)
      (upper_filter_idem keep_upper_fix_passport) v
  · exact congrArg String.mk (strip_upper_idem v.data)
  · exact congrArg String.mk (strip_upper_idem v.data)
  · exact guard_idem (fun l => (l.map pyToUpper).filter ibanKeep)
      (upper_filter_idem keep_upper_fix_iban) v
  · exact congrArg String.mk (upper_filter_idem keep_upper_fix_fi_ssn v.data)
  · exact congrArg String.mk (upper_filter_idem keep_upper_fix_se_ssn v.data)
  · exact fi_company_org_id_filter_idem v

/-- C2: for every input whose filtered form has a known country prefix
and exactly the registered length `n`: if `n ≤ 26`, `iban_validator`
accepts iff the numeral obtained by moving the first 4 characters to the
end and mapping `A`–`Z` to `10`–`35` is `≡ 1 (mod 97)`; if `n > 26`, it
accepts regardless of any checksum.  (Registry entries have positive
length; the registry itself is modelled as a parameter because
`bank_const_iban.py` is not among the sources.) -/
theorem c2_iban_checksum_iff (reg : List (String × Nat)) (v0 : String) (n : Nat)
    (hlook : reg.lookup (strUpper ⟨(iban_filter v0).data.take 2⟩) = some n)
    (hlen : (iban_filter v0).data.length = n) (hpos : 0 < n) :
    (n ≤ 26 → (iban_validator reg v0 = .ok ↔ ibanClaimChecksum (iban_filter v0))) ∧
    (26 < n → iban_validator reg v0 = .ok) := by
  have hne : iban_filter v0 ≠ "" := by
    intro he
    rw [he] at hlen
    simp at hlen
    omega
  have hred : iban_validator reg v0 =
      (if n ≤ 26 then
        (if parseNat (ibanDigits ((iban_filter v0).data.drop 4 ++
              (iban_filter v0).data.take 4)) % 97 = 1
         then VRes.ok else VRes.err .invalid_iban)
       else VRes.ok) := by
    simp only [iban_validator]
    rw [if_neg hne, hlook, hlen]
    simp
  constructor
  · intro h26
    rw [hred, if_pos h26]
    by_cases hck : parseNat (ibanDigits ((iban_filter v0).data.drop 4 ++
        (iban_filter v0).data.take 4)) % 97 = 1
    · rw [if_pos hck]
      simp [ibanClaimChecksum, hck]
    · rw [if_neg hck]
      simp [ibanClaimChecksum, hck]
  · intro h26
    rw [hred, if_neg (by omega)]

theorem c2_iban_checksum_iff_witness :
    iban_validator IBAN_LENGTH_BY_COUNTRY "FI2112345600000785" = .ok ∧
    iban_validator IBAN_LENGTH_BY_COUNTRY "FI2112345600000784" ≠ .ok := by
  have h := (c2_iban_checksum_iff IBAN_LENGTH_BY_COUNTRY "FI2112345600000785" 18
    (by decide) (by decide) (by decide)).1 (by decide)
  have h2 := (c2_iban_checksum_iff IBAN_LENGTH_BY_COUNTRY "FI2112345600000784" 18
    (by decide) (by decide) (by decide)).1 (by decide)
  refine ⟨h.mpr (by decide), fun hok => ?_⟩
  have hc := h2.mp hok
  revert hc
  decide

/-- C3 counterexample: for the empty input, the first 2 characters of the
filtered value (`""`) are not a key of the registry, yet `iban_validator`
raises `invalid_iban` (the missing-value branch), not
`invalid_country_code` as the claim requires. -/
theorem c3_counterexample :
    IBAN_LENGTH_BY_COUNTRY.lookup (strUpper ⟨(iban_filter "").data.take 2⟩) = none ∧
    iban_validator IBAN_LENGTH_BY_COUNTRY "" = .err .invalid_iban ∧
    iban_validator IBAN_LENGTH_BY_COUNTRY "" ≠ .err .invalid_country_code := by
  exact ⟨by decide, by decide, by decide⟩

/-- C3 (amended): an empty filtered value raises `invalid_iban`; for a
nonempty filtered value whose first 2 characters are not a registry key,
`iban_validator` raises `invalid_country_code`; when the country is known
but the filtered length differs from the registered length it raises
`invalid_iban`.  Both error results hold with no condition on the mod-97
checksum, i.e. the validator fails on structure before the checksum can
matter. -/
theorem c3_structural_errors (reg : List (String × Nat)) (v0 : String) :
    (iban_filter v0 = "" → iban_validator reg v0 = .err .invalid_iban) ∧
    (iban_filter v0 ≠ "" →
      reg.lookup (strUpper ⟨(iban_filter v0).data.take 2⟩) = none →
      iban_validator reg v0 = .err .invalid_country_code) ∧
    (∀ n, reg.lookup (strUpper ⟨(iban_filter v0).data.take 2⟩) = some n →
      (iban_filter v0).data.length ≠ n →
      iban_validator reg v0 = .err .invalid_iban) := by
  refine ⟨fun he => ?_, fun hne hnone => ?_, fun n hsome hlen => ?_⟩
  · simp only [iban_validator]
    rw [if_pos he]
  · simp only [iban_validator]
    rw [if_neg hne, hnone]
  · by_cases he : iban_filter v0 = ""
    · simp only [iban_validator]
      rw [if_pos he]
    · simp only [iban_validator]
      rw [if_neg he, hsome]
      simp only []
      rw [if_pos (Ne.symm hlen)]

theorem c3_structural_errors_witness :
    iban_validator IBAN_LENGTH_BY_COUNTRY "XX12" = .err .invalid_country_code ∧
    iban_validator IBAN_LENGTH_BY_COUNTRY "FI21" = .err .invalid_iban := by
  exact ⟨(c3_structural_errors IBAN_LENGTH_BY_COUNTRY "XX12").2.1
           (by decide) (by decide),
         (c3_structural_errors IBAN_LENGTH_BY_COUNTRY "FI21").2.2 18
           (by decide) (by decide)⟩

theorem data_mk (l : List Char) : (⟨l⟩ : String).data = l := rfl

theorem mk_ne_empty {l : List Char} (h : l ≠ []) : (⟨l⟩ : String) ≠ "" :=
  fun he => h (congrArg String.data he)

theorem parseNat_foldl (b : List Char) : ∀ acc : Nat,
    b.foldl (fun a c => a * 10 + (c.toNat - 48)) acc =
      acc * 10 ^ b.length + parseNat b := by
  induction b with
  | nil =>
    intro acc
    simp [parseNat]
  | cons c t ih =>
    intro acc
    have h2 : parseNat (c :: t) = (c.toNat - 48) * 10 ^ t.length + parseNat t := by
      have h0 : parseNat (c :: t) =
          List.foldl (fun a x => a * 10 + (x.toNat - 48)) (0 * 10 + (c.toNat - 48)) t := rfl
      rw [h0, ih (0 * 10 + (c.toNat - 48))]
      congr 1
      ring
    simp only [List.foldl_cons, List.length_cons]
    rw [ih (acc * 10 + (c.toNat - 48)), h2]
    ring

theorem parseNat_append (a b : List Char) :
    parseNat (a ++ b) = parseNat a * 10 ^ b.length + parseNat b := by
  unfold parseNat
  rw [List.foldl_append]
  exact parseNat_foldl b _

theorem digitChar_toNat {d : Nat} (h : d < 10) : (digitChar d).toNat = 48 + d := by
  interval_cases d <;> decide

theorem pyIsDigit_digitChar {d : Nat} (h : d < 10) :
    pyIsDigit (digitChar d) = true := by
  interval_cases d <;> decide

theorem twoDigit_length (c : Nat) : (twoDigit c).length = 2 := rfl

theorem parseNat_twoDigit {c : Nat} (h : c < 100) : parseNat (twoDigit c) = c := by
  unfold parseNat twoDigit
  simp only [List.foldl_cons, List.foldl_nil]
  rw [digitChar_toNat (by omega), digitChar_toNat (by omega)]
  omega

theorem pyIsDigit_twoDigit {c : Nat} (h : c < 100) :
    ∀ x ∈ twoDigit c, pyIsDigit x = true := by
  intro x hx
  simp only [twoDigit, List.mem_cons, List.not_mem_nil, or_false] at hx
  rcases hx with hx | hx
  · subst hx
    exact pyIsDigit_digitChar (by omega)
  · subst hx
    exact pyIsDigit_digitChar (by omega)

theorem ibanDigits_append (a b : List Char) :
    ibanDigits (a ++ b) = ibanDigits a ++ ibanDigits b := by
  induction a with
  | nil => rfl
  | cons c t ih => simp [ibanDigits, ih, List.append_assoc]

theorem ibanDigits_of_digits {l : List Char} (h : ∀ c ∈ l, pyIsDigit c = true) :
    ibanDigits l = l := by
  induction l with
  | nil => rfl
  | cons c t ih =>
    simp only [ibanDigits, h c (List.mem_cons_self c t), if_true]
    rw [ih (fun x hx => h x (List.mem_cons_of_mem c hx))]
    rfl

theorem iban_filter_fixed {l : List Char} (hne : l ≠ [])
    (h : ∀ c ∈ l, ibanKeep c = true ∧ pyToUpper c = c) :
    iban_filter ⟨l⟩ = ⟨l⟩ := by
  unfold iban_filter
  rw [if_neg (mk_ne_empty hne), data_mk]
  congr 1
  rw [map_eq_self_of_fix (fun c hc => (h c hc).2)]
  exact List.filter_eq_self.mpr (fun c hc => (h c hc).1)

/-- Evaluation of `iban_validator` on an input whose filtered form has a
registered country and the registered length: only the checksum branch
remains. -/
theorem iban_validator_eval (reg : List (String × Nat)) (v0 : String) (n : Nat)
    (hlook : reg.lookup (strUpper ⟨(iban_filter v0).data.take 2⟩) = some n)
    (hlen : (iban_filter v0).data.length = n) (hpos : 0 < n) :
    iban_validator reg v0 =
      (if n ≤ 26 then
        (if parseNat (ibanDigits ((iban_filter v0).data.drop 4 ++
              (iban_filter v0).data.take 4)) % 97 = 1
         then VRes.ok else VRes.err .invalid_iban)
       else VRes.ok) := by
  have hne : iban_filter v0 ≠ "" := by
    intro he
    rw [he] at hlen
    simp at hlen
    omega
  simp only [iban_validator]
  rw [if_neg hne, hlook, hlen]
  simp

/-- C1: for every registry country code `cc` (a 2-letter uppercase code)
with registered length `4 ≤ n ≤ 26` and every outcome of the generator's
random BBAN draw (a digit string of length `n - 4`), `iban_generator`
returns a value that `iban_validator` accepts: the checksum search over
`"01".."99"` always finds a two-digit checksum making the mod-97 numeral
congruent to 1, and the assembled IBAN passes filtering, country lookup,
length check and checksum check. -/
theorem c1_iban_generator_roundtrip (reg : List (String × Nat)) (cc : String)
    (n : Nat) (bban : List Char)
    (hlook : reg.lookup cc = some n) (hcc2 : cc.data.length = 2)
    (hccA : ∀ c ∈ cc.data, 65 ≤ c.toNat ∧ c.toNat ≤ 90)
    (hn4 : 4 ≤ n) (hn26 : n ≤ 26)
    (hblen : bban.length = n - 4) (hbd : ∀ c ∈ bban, pyIsDigit c = true) :
    ∃ s : String, iban_generator reg cc bban = .ok s ∧
      iban_validator reg s = .ok := by
  have hex : ∃ x ∈ List.range' 1 99,
      (parseNat (ibanDigits (bban ++ cc.data) ++ ibanDigits (twoDigit x)) % 97
        == 1) = true := by
    refine ⟨(97 - parseNat (ibanDigits (bban ++ cc.data)) * 100 % 97) % 97 + 1,
      ?_, ?_⟩
    · rw [List.mem_range'_1]
      omega
    · have hlt : (97 - parseNat (ibanDigits (bban ++ cc.data)) * 100 % 97) % 97 + 1
          < 100 := by omega
      rw [ibanDigits_of_digits (pyIsDigit_twoDigit hlt), parseNat_append,
        twoDigit_length, parseNat_twoDigit hlt,
        show (10 : Nat) ^ 2 = 100 by norm_num]
      simp only [beq_iff_eq]
      omega
  obtain ⟨c0, hfind⟩ := Option.isSome_iff_exists.mp (List.find?_isSome.mpr hex)
  have hP := List.find?_some hfind
  have hmem := List.mem_of_find?_eq_some hfind
  rw [List.mem_range'_1] at hmem
  have hc0lt : c0 < 100 := by omega
  have hfix : ∀ c ∈ (cc.data ++ twoDigit c0) ++ bban,
      ibanKeep c = true ∧ pyToUpper c = c := by
    intro c hc
    rcases List.mem_append.mp hc with hc | hc
    · rcases List.mem_append.mp hc with hc | hc
      · obtain ⟨h65, h90⟩ := hccA c hc
        refine ⟨?_, pyToUpper_eq_self (by omega)⟩
        simp [ibanKeep, pyIsUpperAlpha, pyIsDigit]
        omega
      · have hd := pyIsDigit_twoDigit hc0lt c hc
        exact ⟨by simp [ibanKeep, hd], pyIsDigit_toUpper_fix hd⟩
    · have hd := hbd c hc
      exact ⟨by simp [ibanKeep, hd], pyIsDigit_toUpper_fix hd⟩
  have hne : (cc.data ++ twoDigit c0) ++ bban ≠ [] := by
    intro he
    have := congrArg List.length he
    simp [hcc2] at this
  have hfilter : iban_filter ⟨(cc.data ++ twoDigit c0) ++ bban⟩ =
      ⟨(cc.data ++ twoDigit c0) ++ bban⟩ := iban_filter_fixed hne hfix
  have htake2 : ((cc.data ++ twoDigit c0) ++ bban).take 2 = cc.data := by
    rw [List.take_append_of_le_length (by simp [hcc2]),
      List.take_append_of_le_length (by omega), ← hcc2, List.take_length]
  have hccfix : ∀ c ∈ cc.data, pyToUpper c = c := by
    intro c hc
    obtain ⟨h65, h90⟩ := hccA c hc
    exact pyToUpper_eq_self (by omega)
  have hcountry : strUpper ⟨(iban_filter
      ⟨(cc.data ++ twoDigit c0) ++ bban⟩).data.take 2⟩ = cc := by
    rw [hfilter, data_mk, htake2]
    show (⟨cc.data.map pyToUpper⟩ : String) = cc
    rw [map_eq_self_of_fix hccfix]
  have hlenL : (iban_filter ⟨(cc.data ++ twoDigit c0) ++ bban⟩).data.length = n := by
    rw [hfilter, data_mk]
    simp only [List.length_append, hcc2, twoDigit_length, hblen]
    omega
  have hchk : parseNat (ibanDigits
      ((iban_filter ⟨(cc.data ++ twoDigit c0) ++ bban⟩).data.drop 4 ++
       (iban_filter ⟨(cc.data ++ twoDigit c0) ++ bban⟩).data.take 4)) % 97 = 1 := by
    rw [hfilter, data_mk]
    have hdrop4 : ((cc.data ++ twoDigit c0) ++ bban).drop 4 = bban := by
      rw [show (4 : Nat) = (cc.data ++ twoDigit c0).length by
        simp [hcc2, twoDigit_length]]
      exact List.drop_left _ _
    have htake4 : ((cc.data ++ twoDigit c0) ++ bban).take 4 =
        cc.data ++ twoDigit c0 := by
      rw [show (4 : Nat) = (cc.data ++ twoDigit c0).length by
        simp [hcc2, twoDigit_length]]
      exact List.take_left _ _
    rw [hdrop4, htake4,
      show bban ++ (cc.data ++ twoDigit c0) = (bban ++ cc.data) ++ twoDigit c0
        from (List.append_assoc _ _ _).symm,
      ibanDigits_append]
    exact beq_iff_eq.mp hP
  refine ⟨⟨(cc.data ++ twoDigit c0) ++ bban⟩, ?_, ?_⟩
  · simp only [iban_generator]
    rw [hlook]
    simp only []
    rw [if_neg (show ¬ 26 < n by omega), hfind]
  · rw [iban_validator_eval reg _ n (by rw [hcountry]; exact hlook) hlenL (by omega),
      if_pos hn26, if_pos hchk]

theorem c1_iban_generator_roundtrip_witness :
    ∃ s : String,
      iban_generator IBAN_LENGTH_BY_COUNTRY "FI" "12345600000785".data = .ok s ∧
      iban_validator IBAN_LENGTH_BY_COUNTRY s = .ok := by
  exact c1_iban_generator_roundtrip IBAN_LENGTH_BY_COUNTRY "FI" 18
    "12345600000785".data (by decide) (by decide) (by decide) (by decide)
    (by decide) (by decide) (by decide)
